import Mathlib

/-!
# Verification of the Dynon D120/D180 EMS frame validator and decoder

Shallow embedding of `lib/inputs/serial_d120.py`:

* `ems_checksum_ok` embeds `serial_d120._ems_checksum_ok` (validator over raw
  bytes, modelled as `List Nat` with values below 256).
* `parse_ems_line` embeds `serial_d120._parse_ems_line` (fixed-width decoder
  over the decoded ASCII line, modelled as `List Char`).

Python's `int(s, 16)` and `int(s)` conversions are embedded faithfully for the
ASCII domain of the wire protocol: they strip surrounding whitespace, accept an
optional leading sign, and accept single underscores between digits.  Float
results (`x / 10.0` and so on) are modelled as exact rationals; no claim in
this development depends on binary floating-point rounding.
-/

namespace SerialD120

/-- `true` for the byte values stripped by `raw.rstrip(b"\r\n")`. -/
def crlfB (x : Nat) : Bool := x == 13 || x == 10

/-- Embeds `raw.rstrip(b"\r\n")`: remove every trailing CR or LF byte. -/
def rstripCRLF (raw : List Nat) : List Nat :=
  (raw.reverse.dropWhile crlfB).reverse

/-- Value of one ASCII hexadecimal digit byte (`0-9`, `A-F`, `a-f`). -/
def hexVal (b : Nat) : Option Nat :=
  if 48 ≤ b ∧ b ≤ 57 then some (b - 48)
  else if 65 ≤ b ∧ b ≤ 70 then some (b - 55)
  else if 97 ≤ b ∧ b ≤ 102 then some (b - 87)
  else none

/-- The byte values CPython's `int()` conversion treats as whitespace in the
ASCII range (space, TAB, LF, VT, FF, CR, FS, GS, RS, US). -/
def isSpcB (b : Nat) : Bool :=
  b == 32 || b == 9 || b == 10 || b == 11 || b == 12 || b == 13 ||
    b == 28 || b == 29 || b == 30 || b == 31

/-- Embeds `int(chk_hex, 16)` for the exactly-two-byte checksum field
(`body[-2:]` after an ASCII decode that fails on bytes ≥ 128).  Python strips
surrounding whitespace and accepts an optional sign, so besides two hex digits
the accepted two-character forms are whitespace+digit, digit+whitespace and
sign+digit; everything else (including bytes ≥ 128, where the ASCII decode
itself raises) yields `none`, which the caller turns into `false`. -/
def pyIntHex2 (a b : Nat) : Option Int :=
  match hexVal a, hexVal b with
  | some x, some y => some ((16 * x + y : Nat) : Int)
  | some x, none => if isSpcB b then some ((x : Nat) : Int) else none
  | none, some y =>
      if isSpcB a then some ((y : Nat) : Int)
      else if a == 43 then some ((y : Nat) : Int)
      else if a == 45 then some (-((y : Nat) : Int))
      else none
  | none, none => none

/-- Embeds `serial_d120._ems_checksum_ok` (source lines 170-183):

    body = raw.rstrip(b"\r\n")
    if len(body) < 4: return False
    chk_val = int(body[-2:].decode("ascii"), 16)   # any failure -> False
    return (sum(body[:-2]) + chk_val) & 0xFF == 0
-/
def ems_checksum_ok (raw : List Nat) : Bool :=
  let body := rstripCRLF raw
  if body.length < 4 then false
  else
    match pyIntHex2 (body.getD (body.length - 2) 0) (body.getD (body.length - 1) 0) with
    | none => false
    | some c => (((body.take (body.length - 2)).sum : Int) + c) % 256 == 0

/-! ## Helper lemmas about the validator -/

theorem dropWhile_append_of_all (p : Nat → Bool) (t ys : List Nat)
    (h : ∀ x ∈ t, p x = true) :
    (t ++ ys).dropWhile p = ys.dropWhile p := by
  induction t with
  | nil => rfl
  | cons x xs ih =>
      have hx : p x = true := h x (by simp)
      simp only [List.cons_append, List.dropWhile_cons, hx, if_true]
      exact ih (fun y hy => h y (by simp [hy]))

/-- Stripping CR/LF from a frame that ends in a non-CR/LF byte `k` followed by
a run of CR/LF bytes `t` keeps exactly the part before `t`. -/
theorem rstrip_append (zs t : List Nat) (k : Nat)
    (hk : crlfB k = false) (ht : ∀ x ∈ t, crlfB x = true) :
    rstripCRLF (zs ++ [k] ++ t) = zs ++ [k] := by
  unfold rstripCRLF
  have hrev : (zs ++ [k] ++ t).reverse = t.reverse ++ (k :: zs.reverse) := by simp
  rw [hrev, dropWhile_append_of_all _ _ _ (fun x hx => ht x (by simpa using hx))]
  simp [List.dropWhile_cons, hk]

/-- Position bookkeeping for a stripped body of the shape `payload ++ [a, b]`. -/
theorem body_pair_shape (P : List Nat) (a b : Nat) :
    (P ++ [a, b]).length = P.length + 2 ∧
    (P ++ [a, b]).getD ((P ++ [a, b]).length - 2) 0 = a ∧
    (P ++ [a, b]).getD ((P ++ [a, b]).length - 1) 0 = b ∧
    (P ++ [a, b]).take ((P ++ [a, b]).length - 2) = P := by
  have hlen : (P ++ [a, b]).length = P.length + 2 := by simp
  have h2 : (P ++ [a, b]).length - 2 = P.length := by omega
  have h1 : (P ++ [a, b]).length - 1 = P.length + 1 := by omega
  have hr : ∀ n d, P.length ≤ n → (P ++ [a, b]).getD n d = [a, b].getD (n - P.length) d := by
    intro n d hn
    simp [List.getD_eq_getElem?_getD, List.getElem?_append_right hn]
  refine ⟨hlen, ?_, ?_, ?_⟩
  · rw [h2, hr P.length 0 (le_refl _)]; simp
  · rw [h1, hr (P.length + 1) 0 (by omega)]
    have : P.length + 1 - P.length = 1 := by omega
    rw [this]; rfl
  · rw [h2]; exact List.take_left P [a, b]

/-- Characterization of `ems_checksum_ok`: it returns `true` exactly when the
CR/LF-stripped body has length at least 4, its last two bytes parse under the
Python hex conversion, and payload-sum plus checksum is 0 mod 256. -/
theorem checksum_ok_iff (raw : List Nat) :
    ems_checksum_ok raw = true ↔
      4 ≤ (rstripCRLF raw).length ∧
      ∃ c, pyIntHex2 ((rstripCRLF raw).getD ((rstripCRLF raw).length - 2) 0)
              ((rstripCRLF raw).getD ((rstripCRLF raw).length - 1) 0) = some c ∧
            ((((rstripCRLF raw).take ((rstripCRLF raw).length - 2)).sum : Int) + c) % 256 = 0 := by
  unfold ems_checksum_ok
  by_cases h4 : (rstripCRLF raw).length < 4
  · simp only [if_pos h4]
    constructor
    · intro h; exact absurd h (by simp)
    · rintro ⟨hlen, -⟩; omega
  · simp only [if_neg h4]
    rcases hx : pyIntHex2 ((rstripCRLF raw).getD ((rstripCRLF raw).length - 2) 0)
        ((rstripCRLF raw).getD ((rstripCRLF raw).length - 1) 0) with - | c
    · constructor
      · intro h; simp at h
      · rintro ⟨-, c, hc, -⟩
        cases hc
    · constructor
      · intro h
        refine ⟨by omega, c, rfl, ?_⟩
        simpa using h
      · rintro ⟨-, c2, hc2, hs⟩
        cases hc2
        simpa using hs

/-! ## Hexadecimal rendering of a checksum byte -/

/-- Lowercase hexadecimal digit byte for a value below 16. -/
def hexChar (n : Nat) : Nat := if n < 10 then 48 + n else 87 + n

/-- Two-character lowercase hexadecimal rendering of a byte value. -/
def hexRender (c : Nat) : List Nat := [hexChar (c / 16), hexChar (c % 16)]

theorem hexVal_hexChar (x : Nat) (h : x < 16) : hexVal (hexChar x) = some x := by
  interval_cases x <;> rfl

theorem crlfB_hexChar (x : Nat) (h : x < 16) : crlfB (hexChar x) = false := by
  interval_cases x <;> rfl

theorem pyIntHex2_render (c : Nat) (hc : c < 256) :
    pyIntHex2 (hexChar (c / 16)) (hexChar (c % 16)) = some (c : Int) := by
  have h1 := hexVal_hexChar (c / 16) (by omega)
  have h2 := hexVal_hexChar (c % 16) (by omega)
  unfold pyIntHex2
  rw [h1, h2]
  simp only [Option.some.injEq]
  have : 16 * (c / 16) + c % 16 = c := by omega
  exact_mod_cast congrArg (fun n : Nat => (n : Int)) this

/-! ## Claims C1, C3, C4, C10 about the validator -/

/-- C1 (corrected): the claim as stated fails for payloads shorter than 2
bytes: with the empty payload and checksum value 0 the modular-sum premise
holds, yet the validator rejects the 2-byte frame because the stripped body
is shorter than 4 bytes. -/
theorem c1_counterexample :
    (0 : Nat) < 256 ∧ (List.sum ([] : List Nat) + 0) % 256 = 0 ∧
    ems_checksum_ok (([] : List Nat) ++ hexRender 0) = false := by decide

/-- C1 (corrected, amended): for every payload of at least 2 bytes and every
checksum value `c < 256` with `(sum p + c) % 256 = 0`, the validator accepts
the payload followed by the two-character hexadecimal rendering of `c`. -/
theorem c1_checksum_roundtrip (p : List Nat) (c : Nat)
    (hp : 2 ≤ p.length) (hc : c < 256) (hsum : (p.sum + c) % 256 = 0) :
    ems_checksum_ok (p ++ hexRender c) = true := by
  have hbody : rstripCRLF (p ++ hexRender c) = p ++ hexRender c := by
    have h := rstrip_append (p ++ [hexChar (c / 16)]) [] (hexChar (c % 16))
      (crlfB_hexChar _ (by omega)) (by simp)
    simpa [hexRender, List.append_assoc] using h
  obtain ⟨hlen, hga, hgb, htake⟩ := body_pair_shape p (hexChar (c / 16)) (hexChar (c % 16))
  rw [checksum_ok_iff, hbody]
  simp only [hexRender]
  refine ⟨by rw [hlen]; omega, (c : Int), ?_, ?_⟩
  · rw [hga, hgb]; exact pyIntHex2_render c hc
  · rw [htake]
    omega

/-- C1 witness: payload `[100, 100]` with checksum byte 56 (`"38"`). -/
theorem c1_witness :
    2 ≤ ([100, 100] : List Nat).length ∧ 56 < 256 ∧
      (([100, 100] : List Nat).sum + 56) % 256 = 0 ∧
      ems_checksum_ok ([100, 100] ++ hexRender 56) = true :=
  ⟨by decide, by decide, by decide,
    c1_checksum_roundtrip [100, 100] 56 (by decide) (by decide) (by decide)⟩

/-- C3 (confirmed): for an accepted frame `u ++ b :: v ++ [k1, k2] ++ t`
(`u ++ b :: v` the payload, `k1 k2` the checksum characters, `t` the trailing
CR/LF run), replacing the payload byte `b` by any different byte value `b2`
while keeping the checksum characters makes the validator return `false`. -/
theorem c3_flip_rejected (u v t : List Nat) (b b2 k1 k2 : Nat)
    (ht : ∀ x ∈ t, x = 13 ∨ x = 10)
    (hk2 : ¬(k2 = 13 ∨ k2 = 10))
    (hb : b < 256) (hb2 : b2 < 256) (hne : b2 ≠ b)
    (hok : ems_checksum_ok (u ++ b :: v ++ [k1, k2] ++ t) = true) :
    ems_checksum_ok (u ++ b2 :: v ++ [k1, k2] ++ t) = false := by
  have htB : ∀ x ∈ t, crlfB x = true := by
    intro x hx; rcases ht x hx with h | h <;> simp [crlfB, h]
  have hkB : crlfB k2 = false := by
    have h1 : k2 ≠ 13 := fun h => hk2 (Or.inl h)
    have h2 : k2 ≠ 10 := fun h => hk2 (Or.inr h)
    simp [crlfB, h1, h2]
  have hbody : ∀ x : Nat,
      rstripCRLF (u ++ x :: v ++ [k1, k2] ++ t) = (u ++ x :: v) ++ [k1, k2] := by
    intro x
    have h := rstrip_append (u ++ x :: v ++ [k1]) t k2 hkB htB
    simpa [List.append_assoc] using h
  obtain ⟨h4, c, hc, hs⟩ := (checksum_ok_iff _).mp hok
  rw [hbody b] at h4 hc hs
  obtain ⟨hlenb, hga, hgb, htakeb⟩ := body_pair_shape (u ++ b :: v) k1 k2
  rw [hga, hgb] at hc
  rw [htakeb] at hs
  cases hmod : ems_checksum_ok (u ++ b2 :: v ++ [k1, k2] ++ t) with
  | false => rfl
  | true =>
    exfalso
    obtain ⟨h4x, c2, hc2, hs2⟩ := (checksum_ok_iff _).mp hmod
    rw [hbody b2] at hc2 hs2
    obtain ⟨hlenb2, hga2, hgb2, htakeb2⟩ := body_pair_shape (u ++ b2 :: v) k1 k2
    rw [hga2, hgb2] at hc2
    rw [htakeb2] at hs2
    rw [hc] at hc2
    injection hc2 with hcc
    subst hcc
    have e1 : (u ++ b :: v).sum = u.sum + b + v.sum := by
      simp [List.sum_append]; ring
    have e2 : (u ++ b2 :: v).sum = u.sum + b2 + v.sum := by
      simp [List.sum_append]; ring
    rw [e1] at hs
    rw [e2] at hs2
    omega

/-- C3 witness: the accepted 4-byte frame `"00a0"` with its first payload
byte flipped from `'0'` to `'1'` is rejected. -/
theorem c3_witness : ems_checksum_ok ([48] ++ 49 :: [] ++ [97, 48] ++ []) = false :=
  c3_flip_rejected [48] [] [] 48 49 97 48 (by simp) (by decide) (by decide)
    (by decide) (by decide) (by decide)

/-- C4 (corrected): the frame `[200, 51, 43, 53]` (checksum field `"+5"`,
whose first character is not a hexadecimal digit) is accepted, not rejected:
Python's `int(s, 16)` conversion tolerates a leading sign, so a last-two-byte
pair that is not a pair of hexadecimal digits can still validate. -/
theorem c4_counterexample :
    hexVal 43 = none ∧ rstripCRLF [200, 51, 43, 53] = [200, 51, 43, 53] ∧
    ems_checksum_ok [200, 51, 43, 53] = true := by decide

/-- C4 (corrected, amended): the validator is total (always returns a
boolean); every frame whose stripped body is shorter than 4 bytes is rejected,
and every frame whose last two body bytes fail the Python hexadecimal
conversion (which accepts two hex digits, and also a leading sign or a
whitespace character next to one hex digit) is rejected. -/
theorem c4_total_and_rejections (raw : List Nat) :
    (ems_checksum_ok raw = true ∨ ems_checksum_ok raw = false) ∧
    ((rstripCRLF raw).length < 4 → ems_checksum_ok raw = false) ∧
    (pyIntHex2 ((rstripCRLF raw).getD ((rstripCRLF raw).length - 2) 0)
        ((rstripCRLF raw).getD ((rstripCRLF raw).length - 1) 0) = none →
      ems_checksum_ok raw = false) := by
  refine ⟨?_, ?_, ?_⟩
  · cases h : ems_checksum_ok raw
    · exact Or.inr rfl
    · exact Or.inl rfl
  · intro h
    unfold ems_checksum_ok
    simp [h]
  · intro h
    cases hmod : ems_checksum_ok raw with
    | false => rfl
    | true =>
      obtain ⟨-, c, hc, -⟩ := (checksum_ok_iff raw).mp hmod
      rw [h] at hc
      cases hc

/-- C4 witness: the 2-byte frame `"00"` is rejected. -/
theorem c4_witness : ems_checksum_ok [48, 48] = false :=
  (c4_total_and_rejections [48, 48]).2.1 (by decide)

/-- C10 (confirmed): the validator returns `true` exactly when the
CR/LF-stripped body has length at least 4, its last two characters parse under
the hexadecimal conversion, and the payload-plus-checksum sum is 0 mod 256;
in particular it enforces no fixed body length: for every `n ≥ 4` some frame
with body length `n` is accepted. -/
theorem c10_checksum_characterization :
    (∀ raw : List Nat, ems_checksum_ok raw = true ↔
      4 ≤ (rstripCRLF raw).length ∧
      ∃ c, pyIntHex2 ((rstripCRLF raw).getD ((rstripCRLF raw).length - 2) 0)
              ((rstripCRLF raw).getD ((rstripCRLF raw).length - 1) 0) = some c ∧
            ((((rstripCRLF raw).take ((rstripCRLF raw).length - 2)).sum : Int) + c) % 256 = 0) ∧
    (∀ n, 4 ≤ n → ∃ raw : List Nat,
      (rstripCRLF raw).length = n ∧ ems_checksum_ok raw = true) := by
  refine ⟨checksum_ok_iff, ?_⟩
  intro n hn
  have hbody : rstripCRLF (List.replicate (n - 2) 0 ++ [48, 48]) =
      List.replicate (n - 2) 0 ++ [48, 48] := by
    have h := rstrip_append (List.replicate (n - 2) 0 ++ [48]) [] 48 (by decide) (by simp)
    simpa [List.append_assoc] using h
  obtain ⟨hlen, hga, hgb, htake⟩ := body_pair_shape (List.replicate (n - 2) 0) 48 48
  refine ⟨List.replicate (n - 2) 0 ++ [48, 48], ?_, ?_⟩
  · rw [hbody, hlen]
    simp
    omega
  · rw [checksum_ok_iff, hbody]
    refine ⟨by rw [hlen]; simp; omega, 0, ?_, ?_⟩
    · rw [hga, hgb]; decide
    · rw [htake]; simp

/-- C10 witness: an accepted frame with body length 6, far from the
117-character field-table layout. -/
theorem c10_witness :
    ∃ raw : List Nat, (rstripCRLF raw).length = 6 ∧ ems_checksum_ok raw = true :=
  c10_checksum_characterization.2 6 (by decide)

/-! ## The fixed-width decoder `_parse_ems_line` -/

/-- CPython `int()` whitespace test for characters (ASCII domain). -/
def isSpcC (c : Char) : Bool := isSpcB c.toNat

/-- Digit run with single underscores between digits (Python `int` accepts
`"1_2"` but rejects `"_1"`, `"1_"` and `"1__2"`), accumulating the value. -/
def digitsCore (acc : Nat) : List Char → Option Nat
  | [] => some acc
  | '_' :: d :: rest =>
      if d.isDigit then digitsCore (10 * acc + (d.toNat - 48)) rest else none
  | c :: rest =>
      if c.isDigit then digitsCore (10 * acc + (c.toNat - 48)) rest else none

/-- A nonempty digit sequence (with legal underscores), starting with a digit. -/
def pyDigits : List Char → Option Nat
  | [] => none
  | c :: rest => if c.isDigit then digitsCore (c.toNat - 48) rest else none

/-- Strip leading and trailing `int()`-whitespace. -/
def stripWs (s : List Char) : List Char :=
  ((s.dropWhile isSpcC).reverse.dropWhile isSpcC).reverse

/-- Embeds Python `int(s)` (base 10) on the ASCII domain of the protocol:
strip surrounding whitespace, optional single leading sign, then a nonempty
digit sequence with single underscores between digits. -/
def pyInt (s : List Char) : Option Int :=
  match stripWs s with
  | '+' :: rest => (pyDigits rest).map (fun n => (n : Int))
  | '-' :: rest => (pyDigits rest).map (fun n => -(n : Int))
  | rest => (pyDigits rest).map (fun n => (n : Int))

/-- Embeds the Python closure `take(n)`: slice `s[i:i+n]` at running offset
`i`; shorter (possibly empty) at the end of the string. -/
def sl (s : List Char) (i n : Nat) : List Char := (s.drop i).take n

/-- The dictionary returned by `_parse_ems_line` (source lines 238-255), with
the float fields modelled as exact rationals. -/
structure EmsRecord where
  map_inhg : ℚ
  oil_temp_f : Int
  oil_psi : Int
  fuel_psi : ℚ
  volts_v : ℚ
  amps_a : Int
  rpm : Int
  ff_gph : ℚ
  fuel_remain_g : ℚ
  fuel_l1_g : ℚ
  fuel_l2_g : ℚ
  egt_f : List Int
  cht_f : List Int
  contact1 : Int
  contact2 : Int
deriving DecidableEq, Repr

/-- Embeds `serial_d120._parse_ems_line` (source lines 185-267).  The running
offset of the Python `take` closure is made explicit: field `k` of width `n`
reads slice `s[i:i+n]` at the fixed offset given by the widths before it.
The three 8-character GP fields (offsets 43-66), the 4-character GP
thermocouple (67-70) and the 2-character product ID (115-116) are taken and
discarded without an `int()` conversion, so they cannot fail and do not
appear.  Any failing `int()` aborts the whole parse (the `except` returns
`None`). -/
def parse_ems_line (s : List Char) : Option EmsRecord :=
  match pyInt (sl s 0 2) with
  | none => none
  | some _z_h =>
    match pyInt (sl s 2 2) with
    | none => none
    | some _z_m =>
      match pyInt (sl s 4 2) with
      | none => none
      | some _z_s =>
        match pyInt (sl s 6 2) with
        | none => none
        | some _frac =>
          match pyInt (sl s 8 4) with
          | none => none
          | some map_raw =>
            match pyInt (sl s 12 3) with
            | none => none
            | some oil_temp_f =>
              match pyInt (sl s 15 3) with
              | none => none
              | some oil_psi =>
                match pyInt (sl s 18 3) with
                | none => none
                | some fuel_psi_tenths =>
                  match pyInt (sl s 21 3) with
                  | none => none
                  | some volts_tenths =>
                    match pyInt (sl s 24 3) with
                    | none => none
                    | some amps_a =>
                      match pyInt (sl s 27 3) with
                      | none => none
                      | some rpm_div10 =>
                        match pyInt (sl s 30 3) with
                        | none => none
                        | some ff_tenths =>
                          match pyInt (sl s 33 4) with
                          | none => none
                          | some fuel_remain_tenths =>
                            match pyInt (sl s 37 3) with
                            | none => none
                            | some fuel_l1_tenths =>
                              match pyInt (sl s 40 3) with
                              | none => none
                              | some fuel_l2_tenths =>
                                match pyInt (sl s 71 4) with
                                | none => none
                                | some egt1 =>
                                  match pyInt (sl s 75 4) with
                                  | none => none
                                  | some egt2 =>
                                    match pyInt (sl s 79 4) with
                                    | none => none
                                    | some egt3 =>
                                      match pyInt (sl s 83 4) with
                                      | none => none
                                      | some egt4 =>
                                        match pyInt (sl s 87 4) with
                                        | none => none
                                        | some egt5 =>
                                          match pyInt (sl s 91 4) with
                                          | none => none
                                          | some egt6 =>
                                            match pyInt (sl s 95 3) with
                                            | none => none
                                            | some cht1 =>
                                              match pyInt (sl s 98 3) with
                                              | none => none
                                              | some cht2 =>
                                                match pyInt (sl s 101 3) with
                                                | none => none
                                                | some cht3 =>
                                                  match pyInt (sl s 104 3) with
                                                  | none => none
                                                  | some cht4 =>
                                                    match pyInt (sl s 107 3) with
                                                    | none => none
                                                    | some cht5 =>
                                                      match pyInt (sl s 110 3) with
                                                      | none => none
                                                      | some cht6 =>
                                                        match pyInt (sl s 113 1) with
                                                        | none => none
                                                        | some contact1 =>
                                                          match pyInt (sl s 114 1) with
                                                          | none => none
                                                          | some contact2 =>
                                                            some {
                                                              map_inhg := (map_raw : ℚ) / 100
                                                              oil_temp_f := oil_temp_f
                                                              oil_psi := oil_psi
                                                              fuel_psi := (fuel_psi_tenths : ℚ) / 10
                                                              volts_v := (volts_tenths : ℚ) / 10
                                                              amps_a := amps_a
                                                              rpm := rpm_div10 * 10
                                                              ff_gph := (ff_tenths : ℚ) / 10
                                                              fuel_remain_g := (fuel_remain_tenths : ℚ) / 10
                                                              fuel_l1_g := (fuel_l1_tenths : ℚ) / 10
                                                              fuel_l2_g := (fuel_l2_tenths : ℚ) / 10
                                                              egt_f := [egt1, egt2, egt3, egt4, egt5, egt6]
                                                              cht_f := [cht1, cht2, cht3, cht4, cht5, cht6]
                                                              contact1 := contact1
                                                              contact2 := contact2 }

/-- `parse_ems_line` written as an `Option.bind` chain (definitionally
equal; convenient for decomposing successful parses). -/
theorem parse_ems_line_def (s : List Char) :
    parse_ems_line s =
      (pyInt (sl s 0 2)).bind fun _z_h =>
      (pyInt (sl s 2 2)).bind fun _z_m =>
      (pyInt (sl s 4 2)).bind fun _z_s =>
      (pyInt (sl s 6 2)).bind fun _frac =>
      (pyInt (sl s 8 4)).bind fun map_raw =>
      (pyInt (sl s 12 3)).bind fun oil_temp_f =>
      (pyInt (sl s 15 3)).bind fun oil_psi =>
      (pyInt (sl s 18 3)).bind fun fuel_psi_tenths =>
      (pyInt (sl s 21 3)).bind fun volts_tenths =>
      (pyInt (sl s 24 3)).bind fun amps_a =>
      (pyInt (sl s 27 3)).bind fun rpm_div10 =>
      (pyInt (sl s 30 3)).bind fun ff_tenths =>
      (pyInt (sl s 33 4)).bind fun fuel_remain_tenths =>
      (pyInt (sl s 37 3)).bind fun fuel_l1_tenths =>
      (pyInt (sl s 40 3)).bind fun fuel_l2_tenths =>
      (pyInt (sl s 71 4)).bind fun egt1 =>
      (pyInt (sl s 75 4)).bind fun egt2 =>
      (pyInt (sl s 79 4)).bind fun egt3 =>
      (pyInt (sl s 83 4)).bind fun egt4 =>
      (pyInt (sl s 87 4)).bind fun egt5 =>
      (pyInt (sl s 91 4)).bind fun egt6 =>
      (pyInt (sl s 95 3)).bind fun cht1 =>
      (pyInt (sl s 98 3)).bind fun cht2 =>
      (pyInt (sl s 101 3)).bind fun cht3 =>
      (pyInt (sl s 104 3)).bind fun cht4 =>
      (pyInt (sl s 107 3)).bind fun cht5 =>
      (pyInt (sl s 110 3)).bind fun cht6 =>
      (pyInt (sl s 113 1)).bind fun contact1 =>
      (pyInt (sl s 114 1)).bind fun contact2 =>
      some {
        map_inhg := (map_raw : ℚ) / 100
        oil_temp_f := oil_temp_f
        oil_psi := oil_psi
        fuel_psi := (fuel_psi_tenths : ℚ) / 10
        volts_v := (volts_tenths : ℚ) / 10
        amps_a := amps_a
        rpm := rpm_div10 * 10
        ff_gph := (ff_tenths : ℚ) / 10
        fuel_remain_g := (fuel_remain_tenths : ℚ) / 10
        fuel_l1_g := (fuel_l1_tenths : ℚ) / 10
        fuel_l2_g := (fuel_l2_tenths : ℚ) / 10
        egt_f := [egt1, egt2, egt3, egt4, egt5, egt6]
        cht_f := [cht1, cht2, cht3, cht4, cht5, cht6]
        contact1 := contact1
        contact2 := contact2 } := by
  unfold parse_ems_line
  cases pyInt (sl s 0 2) with
  | none => rfl
  | some _z_h =>
    cases pyInt (sl s 2 2) with
    | none => rfl
    | some _z_m =>
      cases pyInt (sl s 4 2) with
      | none => rfl
      | some _z_s =>
        cases pyInt (sl s 6 2) with
        | none => rfl
        | some _frac =>
          cases pyInt (sl s 8 4) with
          | none => rfl
          | some map_raw =>
            cases pyInt (sl s 12 3) with
            | none => rfl
            | some oil_temp_f =>
              cases pyInt (sl s 15 3) with
              | none => rfl
              | some oil_psi =>
                cases pyInt (sl s 18 3) with
                | none => rfl
                | some fuel_psi_tenths =>
                  cases pyInt (sl s 21 3) with
                  | none => rfl
                  | some volts_tenths =>
                    cases pyInt (sl s 24 3) with
                    | none => rfl
                    | some amps_a =>
                      cases pyInt (sl s 27 3) with
                      | none => rfl
                      | some rpm_div10 =>
                        cases pyInt (sl s 30 3) with
                        | none => rfl
                        | some ff_tenths =>
                          cases pyInt (sl s 33 4) with
                          | none => rfl
                          | some fuel_remain_tenths =>
                            cases pyInt (sl s 37 3) with
                            | none => rfl
                            | some fuel_l1_tenths =>
                              cases pyInt (sl s 40 3) with
                              | none => rfl
                              | some fuel_l2_tenths =>
                                cases pyInt (sl s 71 4) with
                                | none => rfl
                                | some egt1 =>
                                  cases pyInt (sl s 75 4) with
                                  | none => rfl
                                  | some egt2 =>
                                    cases pyInt (sl s 79 4) with
                                    | none => rfl
                                    | some egt3 =>
                                      cases pyInt (sl s 83 4) with
                                      | none => rfl
                                      | some egt4 =>
                                        cases pyInt (sl s 87 4) with
                                        | none => rfl
                                        | some egt5 =>
                                          cases pyInt (sl s 91 4) with
                                          | none => rfl
                                          | some egt6 =>
                                            cases pyInt (sl s 95 3) with
                                            | none => rfl
                                            | some cht1 =>
                                              cases pyInt (sl s 98 3) with
                                              | none => rfl
                                              | some cht2 =>
                                                cases pyInt (sl s 101 3) with
                                                | none => rfl
                                                | some cht3 =>
                                                  cases pyInt (sl s 104 3) with
                                                  | none => rfl
                                                  | some cht4 =>
                                                    cases pyInt (sl s 107 3) with
                                                    | none => rfl
                                                    | some cht5 =>
                                                      cases pyInt (sl s 110 3) with
                                                      | none => rfl
                                                      | some cht6 =>
                                                        cases pyInt (sl s 113 1) with
                                                        | none => rfl
                                                        | some contact1 =>
                                                          cases pyInt (sl s 114 1) with
                                                          | none => rfl
                                                          | some contact2 =>
                                                              rfl

/-- A successful parse determines every field: all 29 `int()` conversions
succeeded on their slices and the record is built from their values. -/
theorem parse_some_elim (s : List Char) (r : EmsRecord)
    (h : parse_ems_line s = some r) :
    ∃ zh zm zsec zfr mr ot op fp vt am rp ffv frm fl1 fl2
      e1 e2 e3 e4 e5 e6 t1 t2 t3 t4 t5 t6 k1 k2,
      pyInt (sl s 0 2) = some zh ∧
      pyInt (sl s 2 2) = some zm ∧
      pyInt (sl s 4 2) = some zsec ∧
      pyInt (sl s 6 2) = some zfr ∧
      pyInt (sl s 8 4) = some mr ∧
      pyInt (sl s 12 3) = some ot ∧
      pyInt (sl s 15 3) = some op ∧
      pyInt (sl s 18 3) = some fp ∧
      pyInt (sl s 21 3) = some vt ∧
      pyInt (sl s 24 3) = some am ∧
      pyInt (sl s 27 3) = some rp ∧
      pyInt (sl s 30 3) = some ffv ∧
      pyInt (sl s 33 4) = some frm ∧
      pyInt (sl s 37 3) = some fl1 ∧
      pyInt (sl s 40 3) = some fl2 ∧
      pyInt (sl s 71 4) = some e1 ∧
      pyInt (sl s 75 4) = some e2 ∧
      pyInt (sl s 79 4) = some e3 ∧
      pyInt (sl s 83 4) = some e4 ∧
      pyInt (sl s 87 4) = some e5 ∧
      pyInt (sl s 91 4) = some e6 ∧
      pyInt (sl s 95 3) = some t1 ∧
      pyInt (sl s 98 3) = some t2 ∧
      pyInt (sl s 101 3) = some t3 ∧
      pyInt (sl s 104 3) = some t4 ∧
      pyInt (sl s 107 3) = some t5 ∧
      pyInt (sl s 110 3) = some t6 ∧
      pyInt (sl s 113 1) = some k1 ∧
      pyInt (sl s 114 1) = some k2 ∧
      r = { map_inhg := (mr : ℚ) / 100, oil_temp_f := ot, oil_psi := op,
            fuel_psi := (fp : ℚ) / 10, volts_v := (vt : ℚ) / 10, amps_a := am,
            rpm := rp * 10, ff_gph := (ffv : ℚ) / 10,
            fuel_remain_g := (frm : ℚ) / 10, fuel_l1_g := (fl1 : ℚ) / 10,
            fuel_l2_g := (fl2 : ℚ) / 10, egt_f := [e1, e2, e3, e4, e5, e6],
            cht_f := [t1, t2, t3, t4, t5, t6], contact1 := k1, contact2 := k2 } := by
  rw [parse_ems_line_def] at h
  obtain ⟨zh, h1, h⟩ := Option.bind_eq_some.mp h
  obtain ⟨zm, h2, h⟩ := Option.bind_eq_some.mp h
  obtain ⟨zsec, h3, h⟩ := Option.bind_eq_some.mp h
  obtain ⟨zfr, h4, h⟩ := Option.bind_eq_some.mp h
  obtain ⟨mr, h5, h⟩ := Option.bind_eq_some.mp h
  obtain ⟨ot, h6, h⟩ := Option.bind_eq_some.mp h
  obtain ⟨op, h7, h⟩ := Option.bind_eq_some.mp h
  obtain ⟨fp, h8, h⟩ := Option.bind_eq_some.mp h
  obtain ⟨vt, h9, h⟩ := Option.bind_eq_some.mp h
  obtain ⟨am, h10, h⟩ := Option.bind_eq_some.mp h
  obtain ⟨rp, h11, h⟩ := Option.bind_eq_some.mp h
  obtain ⟨ffv, h12, h⟩ := Option.bind_eq_some.mp h
  obtain ⟨frm, h13, h⟩ := Option.bind_eq_some.mp h
  obtain ⟨fl1, h14, h⟩ := Option.bind_eq_some.mp h
  obtain ⟨fl2, h15, h⟩ := Option.bind_eq_some.mp h
  obtain ⟨e1, h16, h⟩ := Option.bind_eq_some.mp h
  obtain ⟨e2, h17, h⟩ := Option.bind_eq_some.mp h
  obtain ⟨e3, h18, h⟩ := Option.bind_eq_some.mp h
  obtain ⟨e4, h19, h⟩ := Option.bind_eq_some.mp h
  obtain ⟨e5, h20, h⟩ := Option.bind_eq_some.mp h
  obtain ⟨e6, h21, h⟩ := Option.bind_eq_some.mp h
  obtain ⟨t1, h22, h⟩ := Option.bind_eq_some.mp h
  obtain ⟨t2, h23, h⟩ := Option.bind_eq_some.mp h
  obtain ⟨t3, h24, h⟩ := Option.bind_eq_some.mp h
  obtain ⟨t4, h25, h⟩ := Option.bind_eq_some.mp h
  obtain ⟨t5, h26, h⟩ := Option.bind_eq_some.mp h
  obtain ⟨t6, h27, h⟩ := Option.bind_eq_some.mp h
  obtain ⟨k1, h28, h⟩ := Option.bind_eq_some.mp h
  obtain ⟨k2, h29, h⟩ := Option.bind_eq_some.mp h
  exact ⟨zh, zm, zsec, zfr, mr, ot, op, fp, vt, am, rp, ffv, frm, fl1, fl2, e1, e2, e3, e4, e5, e6, t1, t2, t3, t4, t5, t6, k1, k2,
    h1, h2, h3, h4, h5, h6, h7, h8, h9, h10, h11, h12, h13, h14, h15, h16, h17, h18, h19, h20, h21, h22, h23, h24, h25, h26, h27, h28, h29,
    (Option.some.inj h).symm⟩

/-! ## Demonstration frames -/

/-- A well-formed 115-character frame body (checksum and product ID absent):
zulu `12:34:56.07`, MAP `29.50` inHg, oil temperature `-05` F, oil pressure
`050` PSI, fuel pressure `6.1`, volts `13.8`, amps `-12`, RPM `250`×10, fuel
flow `8.5`, fuel remaining `25.0`, tanks `12.0`/`13.0`, 28 ignored GP
characters, six EGTs, six CHTs, contacts `1` and `0`. -/
def demoLine : List Char :=
  "123456072950-05050061138-122500850250120130".toList ++
    List.replicate 28 '0' ++
    "125013001275128012901260350360345355340348".toList ++ "10".toList

/-- A record of zeroes, only used as the `Option.getD` default below (the
parses it is paired with are all proved successful). -/
def zeroRec : EmsRecord :=
  { map_inhg := 0, oil_temp_f := 0, oil_psi := 0, fuel_psi := 0, volts_v := 0,
    amps_a := 0, rpm := 0, ff_gph := 0, fuel_remain_g := 0, fuel_l1_g := 0,
    fuel_l2_g := 0, egt_f := [], cht_f := [], contact1 := 0, contact2 := 0 }

/-- The record `demoLine` decodes to. -/
def demoRec : EmsRecord := (parse_ems_line demoLine).getD zeroRec

/-- `demoLine` with the oil-pressure slice (offsets 15-17) changed from
`"050"` to `"+50"`: a non-digit character inside a numeric field. -/
def demoPlusLine : List Char :=
  "123456072950-05+50061138-122500850250120130".toList ++
    List.replicate 28 '0' ++
    "125013001275128012901260350360345355340348".toList ++ "10".toList

/-- The record `demoPlusLine` decodes to. -/
def demoPlusRec : EmsRecord := (parse_ems_line demoPlusLine).getD zeroRec

/-! ## Claims C2, C5-C9 about the decoder -/

/-- C2 (confirmed): the decoder is total and all-or-nothing: for every input
it returns either the failure signal `none` or a complete record (in
particular both per-cylinder lists carry all six entries); no exception can
escape since the embedding is a total function. -/
theorem c2_all_or_nothing (s : List Char) :
    parse_ems_line s = none ∨
      ∃ r, parse_ems_line s = some r ∧ r.egt_f.length = 6 ∧ r.cht_f.length = 6 := by
  cases h : parse_ems_line s with
  | none => exact Or.inl rfl
  | some r =>
    refine Or.inr ⟨r, rfl, ?_, ?_⟩ <;>
    · obtain ⟨zh, zm, zsec, zfr, mr, ot, op, fp, vt, am, rp, ffv, frm, fl1, fl2, e1, e2, e3, e4, e5, e6, t1, t2, t3, t4, t5, t6, k1, k2,
    h1, h2, h3, h4, h5, h6, h7, h8, h9, h10, h11, h12, h13, h14, h15, h16, h17, h18, h19, h20, h21, h22, h23, h24, h25, h26, h27, h28, h29, hr⟩ := parse_some_elim s r h
      rw [hr]
      rfl

/-- C5 (corrected): the claim fails on the code: `demoPlusLine` carries a
`'+'` — a non-digit character that is not a permitted leading minus of a
signed field — inside the numeric oil-pressure field, yet it decodes to a
complete record, because Python `int()` accepts a leading `'+'`. -/
theorem c5_counterexample :
    sl demoPlusLine 15 3 = [Char.ofNat 43, Char.ofNat 53, Char.ofNat 48] ∧
    (Char.ofNat 43).isDigit = false ∧
    parse_ems_line demoPlusLine = some demoPlusRec ∧
    demoPlusRec.oil_psi = 50 :=
  ⟨by decide, by decide, rfl, by decide⟩

/-- C5 (corrected, amended): decoding fails entirely — returning the failure
signal `none` — whenever any of the 29 numeric field slices does not parse
under Python integer syntax (which, besides plain digits, tolerates a leading
`'+'` or `'-'` in every numeric field, surrounding whitespace, and single
underscores between digits). -/
theorem c5_malformed_field_aborts (s : List Char)
    (h : pyInt (sl s 0 2) = none ∨
      pyInt (sl s 2 2) = none ∨
      pyInt (sl s 4 2) = none ∨
      pyInt (sl s 6 2) = none ∨
      pyInt (sl s 8 4) = none ∨
      pyInt (sl s 12 3) = none ∨
      pyInt (sl s 15 3) = none ∨
      pyInt (sl s 18 3) = none ∨
      pyInt (sl s 21 3) = none ∨
      pyInt (sl s 24 3) = none ∨
      pyInt (sl s 27 3) = none ∨
      pyInt (sl s 30 3) = none ∨
      pyInt (sl s 33 4) = none ∨
      pyInt (sl s 37 3) = none ∨
      pyInt (sl s 40 3) = none ∨
      pyInt (sl s 71 4) = none ∨
      pyInt (sl s 75 4) = none ∨
      pyInt (sl s 79 4) = none ∨
      pyInt (sl s 83 4) = none ∨
      pyInt (sl s 87 4) = none ∨
      pyInt (sl s 91 4) = none ∨
      pyInt (sl s 95 3) = none ∨
      pyInt (sl s 98 3) = none ∨
      pyInt (sl s 101 3) = none ∨
      pyInt (sl s 104 3) = none ∨
      pyInt (sl s 107 3) = none ∨
      pyInt (sl s 110 3) = none ∨
      pyInt (sl s 113 1) = none ∨
      pyInt (sl s 114 1) = none) :
    parse_ems_line s = none := by
  cases hp : parse_ems_line s with
  | none => rfl
  | some r =>
    exfalso
    obtain ⟨zh, zm, zsec, zfr, mr, ot, op, fp, vt, am, rp, ffv, frm, fl1, fl2, e1, e2, e3, e4, e5, e6, t1, t2, t3, t4, t5, t6, k1, k2,
    h1, h2, h3, h4, h5, h6, h7, h8, h9, h10, h11, h12, h13, h14, h15, h16, h17, h18, h19, h20, h21, h22, h23, h24, h25, h26, h27, h28, h29, hr⟩ := parse_some_elim s r hp
    rcases h with h|h|h|h|h|h|h|h|h|h|h|h|h|h|h|h|h|h|h|h|h|h|h|h|h|h|h|h|h <;>
      simp_all

/-- C5 witness: a two-character input whose first slice `"XY"` has no digits
is rejected as a whole. -/
theorem c5_witness : parse_ems_line [Char.ofNat 88, Char.ofNat 89] = none :=
  c5_malformed_field_aborts [Char.ofNat 88, Char.ofNat 89] (Or.inl (by decide))

/-- C6 (corrected): the claim fails on the code: a 116-character input is
truncated with respect to the 117-character field-table layout (its
product-ID field is cut short), yet the decoder returns a complete record
rather than the failure signal, because the product-ID slice is never
converted to an integer. -/
theorem c6_counterexample :
    (demoLine ++ [Char.ofNat 81]).length = 116 ∧ 116 < 117 ∧
    (parse_ems_line (demoLine ++ [Char.ofNat 81])).isSome = true := by
  refine ⟨by decide, by decide, by decide⟩

/-- C6 (corrected, amended): every input shorter than 115 characters — the
part of the layout the decoder actually converts, through the two contact
digits — fails to decode and yields the failure signal `none`; truncation
inside the trailing product-ID positions (115-116) does not cause failure. -/
theorem c6_truncated_fails (s : List Char) (h : s.length < 115) :
    parse_ems_line s = none := by
  cases hp : parse_ems_line s with
  | none => rfl
  | some r =>
    exfalso
    obtain ⟨zh, zm, zsec, zfr, mr, ot, op, fp, vt, am, rp, ffv, frm, fl1, fl2, e1, e2, e3, e4, e5, e6, t1, t2, t3, t4, t5, t6, k1, k2,
    h1, h2, h3, h4, h5, h6, h7, h8, h9, h10, h11, h12, h13, h14, h15, h16, h17, h18, h19, h20, h21, h22, h23, h24, h25, h26, h27, h28, h29, hr⟩ := parse_some_elim s r hp
    have hnil : sl s 114 1 = [] := by
      unfold sl
      have hd : s.drop 114 = [] := by
        rw [List.drop_eq_nil_iff]
        omega
      rw [hd]
      rfl
    rw [hnil] at h29
    have hnone : pyInt ([] : List Char) = none := rfl
    rw [hnone] at h29
    cases h29

/-- C6 witness: the empty input is rejected with the failure signal. -/
theorem c6_witness : ([] : List Char).length < 115 ∧ parse_ems_line [] = none :=
  ⟨by decide, c6_truncated_fails [] (by decide)⟩

/-- C7 (confirmed): a successful decode always sets `rpm` to ten times the
integer value of the raw 3-character RPM slice at offsets 27-29, so `rpm` is
a multiple of 10. -/
theorem c7_rpm_scaled (s : List Char) (r : EmsRecord)
    (h : parse_ems_line s = some r) :
    ∃ v, pyInt (sl s 27 3) = some v ∧ r.rpm = v * 10 ∧ (10 : Int) ∣ r.rpm := by
  obtain ⟨zh, zm, zsec, zfr, mr, ot, op, fp, vt, am, rp, ffv, frm, fl1, fl2, e1, e2, e3, e4, e5, e6, t1, t2, t3, t4, t5, t6, k1, k2,
    h1, h2, h3, h4, h5, h6, h7, h8, h9, h10, h11, h12, h13, h14, h15, h16, h17, h18, h19, h20, h21, h22, h23, h24, h25, h26, h27, h28, h29, hr⟩ := parse_some_elim s r h
  refine ⟨rp, h11, ?_, ?_⟩
  · rw [hr]
  · rw [hr]
    exact dvd_mul_left 10 rp

/-- C7 witness: `demoLine` has raw RPM slice `"250"` and decodes to
`rpm = 2500`. -/
theorem c7_witness :
    sl demoLine 27 3 = [Char.ofNat 50, Char.ofNat 53, Char.ofNat 48] ∧
    demoRec.rpm = 2500 ∧
    ∃ v, pyInt (sl demoLine 27 3) = some v ∧ demoRec.rpm = v * 10 ∧
      (10 : Int) ∣ demoRec.rpm :=
  ⟨by decide, by decide, c7_rpm_scaled demoLine demoRec rfl⟩

/-- C8 (confirmed): a successful decode takes the oil temperature as the
signed integer value of the fixed 3-character slice at offsets 12-14 (a
leading minus occupies one of the three positions). -/
theorem c8_oil_temp_signed (s : List Char) (r : EmsRecord)
    (h : parse_ems_line s = some r) :
    ∃ v, pyInt (sl s 12 3) = some v ∧ r.oil_temp_f = v := by
  obtain ⟨zh, zm, zsec, zfr, mr, ot, op, fp, vt, am, rp, ffv, frm, fl1, fl2, e1, e2, e3, e4, e5, e6, t1, t2, t3, t4, t5, t6, k1, k2,
    h1, h2, h3, h4, h5, h6, h7, h8, h9, h10, h11, h12, h13, h14, h15, h16, h17, h18, h19, h20, h21, h22, h23, h24, h25, h26, h27, h28, h29, hr⟩ := parse_some_elim s r h
  refine ⟨ot, h6, ?_⟩
  rw [hr]

/-- C8 witness: `demoLine` has oil-temperature slice `"-05"` and decodes to
`oil_temp_f = -5`. -/
theorem c8_witness :
    sl demoLine 12 3 = [Char.ofNat 45, Char.ofNat 48, Char.ofNat 53] ∧
    demoRec.oil_temp_f = -5 ∧
    ∃ v, pyInt (sl demoLine 12 3) = some v ∧ demoRec.oil_temp_f = v :=
  ⟨by decide, by decide, c8_oil_temp_signed demoLine demoRec rfl⟩

/-- C9 (confirmed): the decoder never examines positions 115 and beyond (the
product-ID and checksum positions): inputs that agree on their first 115
characters decode identically, and a successful decode still succeeds, with
the same record, on just the first 115 characters. -/
theorem c9_first_115_only :
    (∀ s t : List Char, s.take 115 = t.take 115 →
      parse_ems_line s = parse_ems_line t) ∧
    (∀ (s : List Char) (r : EmsRecord), parse_ems_line s = some r →
      parse_ems_line (s.take 115) = some r) := by
  have hform : ∀ (u : List Char) (i n : Nat), i + n ≤ 115 →
      sl u i n = ((u.take 115).drop i).take n := by
    intro u i n hin
    unfold sl
    rw [List.drop_take 115 i u, List.take_take]
    have hmin : min n (115 - i) = n := by omega
    rw [hmin]
  have hmain : ∀ s t : List Char, s.take 115 = t.take 115 →
      parse_ems_line s = parse_ems_line t := by
    intro s t hst
    have e : ∀ i n : Nat, i + n ≤ 115 → sl s i n = sl t i n := by
      intro i n hin
      rw [hform s i n hin, hform t i n hin, hst]
    rw [parse_ems_line_def s, parse_ems_line_def t]
    rw [e 0 2 (by omega),
      e 2 2 (by omega),
      e 4 2 (by omega),
      e 6 2 (by omega),
      e 8 4 (by omega),
      e 12 3 (by omega),
      e 15 3 (by omega),
      e 18 3 (by omega),
      e 21 3 (by omega),
      e 24 3 (by omega),
      e 27 3 (by omega),
      e 30 3 (by omega),
      e 33 4 (by omega),
      e 37 3 (by omega),
      e 40 3 (by omega),
      e 71 4 (by omega),
      e 75 4 (by omega),
      e 79 4 (by omega),
      e 83 4 (by omega),
      e 87 4 (by omega),
      e 91 4 (by omega),
      e 95 3 (by omega),
      e 98 3 (by omega),
      e 101 3 (by omega),
      e 104 3 (by omega),
      e 107 3 (by omega),
      e 110 3 (by omega),
      e 113 1 (by omega),
      e 114 1 (by omega)]
  refine ⟨hmain, fun s r h => ?_⟩
  have hts : (s.take 115).take 115 = s.take 115 := by
    simp
  rw [hmain (s.take 115) s (by rw [hts]), h]

/-- C9 witness: appending two junk characters to `demoLine` (length 115)
does not change the decode result. -/
theorem c9_witness :
    parse_ems_line (demoLine ++ [Char.ofNat 90, Char.ofNat 90]) =
      parse_ems_line demoLine :=
  c9_first_115_only.1 (demoLine ++ [Char.ofNat 90, Char.ofNat 90]) demoLine
    (by decide)

end SerialD120
